import Mathlib

/-!
Verification model of the cache subsystem of the `peak` repository
(`src/app/cache.py`): the Postgres-backed, multi-process memoization cache
(`PostgresCache.get`, `PostgresCache.set`, `PostgresCache.get_with_lock`,
`PostgresCache.cleanup_expired`) and the `cached` decorator wrappers
(`cached.sync_wrapper`, `cached.async_wrapper`).

Modelling conventions:

* Time is an absolute instant in milliseconds (`Nat`); `NOW()` is the `now`
  argument threaded through each operation (the busy path sleeps 500 ms, so
  its re-read happens at `now + 500`).
* The `app_cache` table is a list of `(key, Entry)` rows; the PRIMARY KEY
  constraint is the hypothesis that the keys are `Nodup` where it matters.
* Cache payloads are Python/JSON values (`PyVal`).  `json.dumps` followed by
  `json.loads` is the identity on every JSON-round-trip-serializable value,
  so the serialization layer is modelled as the identity on `PyVal`: the
  `value` column stores the `PyVal` that `json.loads` would return.  The one
  behaviourally relevant consequence of the encoding — that a stored JSON
  `null` deserializes to Python `None`, the same object the code uses to
  encode a miss — is preserved by `PyVal.null`.
* Storage-layer faults (connection failure, serialization failure) are
  injected through explicit boolean fault flags, one per `try/except` block
  of the source; the model of each operation reproduces what its `except`
  branch returns.
* Row locks held by other transactions are passed in as the environment
  `lockedByOthers`.  Following the documented semantics of Postgres row
  locking, `SELECT ... FOR UPDATE NOWAIT` locks exactly the rows the query
  returns: it raises `LockNotAvailable` only when a row that satisfies the
  `WHERE` clause is locked by another transaction, and it acquires no lock
  at all when zero rows match (absent or expired key).
-/

namespace Peak

/-- Python/JSON values that can appear as cache payloads.  `null` doubles as
the Python `None` object, which the source also uses to signal a cache miss. -/
inductive PyVal where
  | null
  | bool (b : Bool)
  | int (n : Int)
  | str (s : String)
  deriving DecidableEq, Repr

/-- Python exceptions relevant to the cache paths.  `cacheComputeError` is
modelled from the spec: the spec names an error type `CacheComputeError`
wrapping errors from `compute`, but no such type exists anywhere in the
source; the constructor exists here only so that statements about it can be
written down. -/
inductive PyErr where
  | timeoutError
  | valueError (msg : String)
  | connectionError
  | cacheComputeError (inner : PyErr)
  deriving DecidableEq, Repr

/-- One row of the `app_cache` table: `value TEXT NOT NULL` (the stored JSON
payload, see the serialization convention above) and
`expires_at TIMESTAMP WITH TIME ZONE NOT NULL`. -/
structure Entry where
  value : PyVal
  expires_at : Nat
  deriving DecidableEq, Repr

/-- The `app_cache` table.  `key TEXT PRIMARY KEY` is the `Nodup` hypothesis
on `db.map Prod.fst` where a proof needs it. -/
abbrev DB := List (String × Entry)

/-- INSERT INTO app_cache (key, value, expires_at) VALUES (...)
ON CONFLICT (key) DO UPDATE SET value = ..., expires_at = ...
on a table with at most one row per key: the new row replaces any row with
the same key. -/
def dbUpsert (db : DB) (key : String) (e : Entry) : DB :=
  (key, e) :: db.filter (fun p => p.1 != key)

/-- SELECT value, expires_at FROM app_cache
WHERE key = %s AND expires_at > NOW() — the row returned by the query shared
by `PostgresCache.get` and `PostgresCache.get_with_lock`: the row for `key`,
if present and unexpired. -/
def cacheQuery (db : DB) (now : Nat) (key : String) : Option Entry :=
  match db.lookup key with
  | some e => if now < e.expires_at then some e else none
  | none => none

/-- PostgresCache.get: run `cacheQuery`; on a row, return
`json.loads(result[0])` (the stored payload); on no row, print MISS and
return `None`; on any storage error (`connErr`), print and return `None`.
The return type is `PyVal` because the Python function returns the payload
or `None`, and a stored JSON `null` deserializes to that same `None`. -/
def PostgresCache.get (db : DB) (now : Nat) (key : String) (connErr : Bool) : PyVal :=
  if connErr then PyVal.null
  else
    match cacheQuery db now key with
    | some e => e.value
    | none => PyVal.null

/-- PostgresCache.set: serialize the value, compute
`expires_at = now + ttl_seconds`, upsert, commit, return `True`; on any
error (`err`: connection or serialization failure), roll back and return
`False` with the table unchanged. -/
def PostgresCache.set (db : DB) (now : Nat) (key : String) (value : PyVal)
    (ttl_seconds : Nat) (err : Bool) : DB × Bool :=
  if err then (db, false)
  else (dbUpsert db key ⟨value, now + ttl_seconds⟩, true)

/-- PostgresCache.cleanup_expired: DELETE FROM app_cache WHERE
expires_at <= NOW(), returning `cur.rowcount`; on any error (`err`), roll
back and return 0. -/
def PostgresCache.cleanup_expired (db : DB) (now : Nat) (err : Bool) : DB × Nat :=
  if err then (db, 0)
  else
    ((db.filter fun p => !(decide (p.2.expires_at ≤ now))),
     (db.filter fun p => decide (p.2.expires_at ≤ now)).length)

/-- Result of `PostgresCache.get_with_lock`, the Python triple
`(value, conn, cur)` plus observables needed to state the claims:
`value` is the first component (`PyVal.null` standing for Python `None`);
`hasConn` records whether `conn`/`cur` were returned open (the
lock-acquired-for-computation outcome); `heldLocks` records which row locks
the transaction behind that open connection actually holds on return;
`plainReads` counts the plain, non-locking SELECTs performed inside the
call; `sleptMs` the total time slept inside the call. -/
structure LockResult where
  value : PyVal
  hasConn : Bool
  heldLocks : List String
  plainReads : Nat
  sleptMs : Nat
  deriving DecidableEq, Repr

/-- PostgresCache.get_with_lock: execute the SELECT ... FOR UPDATE NOWAIT.

* Row matched and locked elsewhere: `LockNotAvailable` is raised; the code
  closes the connection, sleeps 500 ms, and returns
  `(self.get(key), None, None)` — one plain read at `now + 500`.
* Row matched and lockable: cache hit; the value is returned and the
  connection (with its lock) is closed immediately.
* Zero rows matched (key absent or expired): `FOR UPDATE` locks only the
  rows it returns, so no row lock is acquired; the code returns
  `(None, conn, cur)` with the transaction open and `heldLocks = []`.
* Any other storage error (`connErr`): close everything, return
  `(None, None, None)`. -/
def PostgresCache.get_with_lock (db : DB) (now : Nat) (key : String)
    (lockedByOthers : List String) (connErr : Bool) : LockResult :=
  if connErr then
    { value := PyVal.null, hasConn := false, heldLocks := [], plainReads := 0, sleptMs := 0 }
  else
    match cacheQuery db now key with
    | some e =>
      if key ∈ lockedByOthers then
        { value := PostgresCache.get db (now + 500) key false
          hasConn := false, heldLocks := [], plainReads := 1, sleptMs := 500 }
      else
        { value := e.value, hasConn := false, heldLocks := [], plainReads := 0, sleptMs := 0 }
    | none =>
      { value := PyVal.null, hasConn := true, heldLocks := [], plainReads := 0, sleptMs := 0 }

/-- Fault-injection flags, one per storage `try/except` region the wrapper
exercises: `lockErr` for the generic except of `get_with_lock`, `getErr` for
the except of the fallback `get`, `setErr` for the except of `set`
(connection or `json.dumps` serialization failure). -/
structure Faults where
  lockErr : Bool
  getErr : Bool
  setErr : Bool
  deriving DecidableEq, Repr

/-- Fully healthy storage backend. -/
def noFaults : Faults := ⟨false, false, false⟩

/-- Result of one `cached` wrapper invocation, with the observables the
claims are about.  `result` is what the wrapper returns or the exception it
propagates; `db` the table afterwards; `plainReads` the total number of
plain non-locking SELECTs performed anywhere in the invocation; `sleptMs`
the total time slept; `computeRan` whether the wrapped function was invoked;
`setCalls` how many times `PostgresCache.set` was called; `storedOk` whether
a `set` call committed successfully; the `guard*` fields describe the fate
of the open `conn`/`cur` pair when `get_with_lock` returned one:
`guardRolledBack` whether the wrapper code rolled the transaction back,
`guardCommitted` whether it was committed, `guardConnOpenAtExit` whether the
connection object is still open (never closed by any wrapper code path) when
the invocation ends; `usedKey` the cache key the invocation used. -/
structure WrapResult where
  result : Except PyErr PyVal
  db : DB
  plainReads : Nat
  sleptMs : Nat
  computeRan : Bool
  setCalls : Nat
  storedOk : Bool
  guardRolledBack : Bool
  guardCommitted : Bool
  guardConnOpenAtExit : Bool
  usedKey : String
  deriving Repr

/-- cache_key = f-string of the module and qualified name of the wrapped
function: the call arguments play no part. -/
def cacheKey (module func_name : String) : String :=
  module ++ "." ++ func_name

/-- cached.sync_wrapper for a function `func` of argument type `α` (the
tuple `(*args, **kwargs)`); `func args` is `.ok v` when the call returns `v`
and `.error e` when it raises `e`.

Control flow of the source:

1. `cached_result, conn, cur = postgres_cache.get_with_lock(cache_key)`.
2. `if cached_result is not None`: return it.
3. `if conn is None and cur is None`: fall back to one plain
   `postgres_cache.get(cache_key)`; if that is not `None` return it,
   otherwise call `func` directly and return the result without caching
   (an exception from `func` propagates).
4. Otherwise (`conn`/`cur` open): call `func`.  There is no `try/finally`
   around this call, so an exception from `func` propagates with the
   connection still open — nothing rolls back or closes it.  On success,
   `postgres_cache.set(cache_key, result, ttl, conn, cur)` commits the
   upsert (or rolls back and returns `False` on a storage/serialization
   error); `set` does not close a provided connection (`should_close` is
   `False`) and the wrapper then drops its references without closing, so
   the connection object stays open on this path too. -/
def cached.sync_wrapper {α : Type} (ttl_seconds : Nat) (module func_name : String)
    (func : α → Except PyErr PyVal) (args : α)
    (db : DB) (now : Nat) (lockedByOthers : List String) (f : Faults) : WrapResult :=
  let cache_key := cacheKey module func_name
  let r := PostgresCache.get_with_lock db now cache_key lockedByOthers f.lockErr
  if r.value != PyVal.null then
    { result := Except.ok r.value, db := db, plainReads := r.plainReads
      sleptMs := r.sleptMs, computeRan := false, setCalls := 0, storedOk := false
      guardRolledBack := false, guardCommitted := false, guardConnOpenAtExit := false
      usedKey := cache_key }
  else if r.hasConn = false then
    let cached_result := PostgresCache.get db (now + r.sleptMs) cache_key f.getErr
    if cached_result != PyVal.null then
      { result := Except.ok cached_result, db := db, plainReads := r.plainReads + 1
        sleptMs := r.sleptMs, computeRan := false, setCalls := 0, storedOk := false
        guardRolledBack := false, guardCommitted := false, guardConnOpenAtExit := false
        usedKey := cache_key }
    else
      match func args with
      | Except.ok v =>
        { result := Except.ok v, db := db, plainReads := r.plainReads + 1
          sleptMs := r.sleptMs, computeRan := true, setCalls := 0, storedOk := false
          guardRolledBack := false, guardCommitted := false, guardConnOpenAtExit := false
          usedKey := cache_key }
      | Except.error e =>
        { result := Except.error e, db := db, plainReads := r.plainReads + 1
          sleptMs := r.sleptMs, computeRan := true, setCalls := 0, storedOk := false
          guardRolledBack := false, guardCommitted := false, guardConnOpenAtExit := false
          usedKey := cache_key }
  else
    match func args with
    | Except.error e =>
      { result := Except.error e, db := db, plainReads := r.plainReads
        sleptMs := r.sleptMs, computeRan := true, setCalls := 0, storedOk := false
        guardRolledBack := false, guardCommitted := false, guardConnOpenAtExit := true
        usedKey := cache_key }
    | Except.ok v =>
      let s := PostgresCache.set db now cache_key v ttl_seconds f.setErr
      { result := Except.ok v, db := s.1, plainReads := r.plainReads
        sleptMs := r.sleptMs, computeRan := true, setCalls := 1, storedOk := s.2
        guardRolledBack := !s.2, guardCommitted := s.2, guardConnOpenAtExit := true
        usedKey := cache_key }

/-- cached.async_wrapper: textually parallel to `cached.sync_wrapper` in the
source (the only difference is `await func(*args, **kwargs)`); awaiting does
not change the sequential semantics of one invocation, so the model body is
the same. -/
def cached.async_wrapper {α : Type} (ttl_seconds : Nat) (module func_name : String)
    (func : α → Except PyErr PyVal) (args : α)
    (db : DB) (now : Nat) (lockedByOthers : List String) (f : Faults) : WrapResult :=
  let cache_key := cacheKey module func_name
  let r := PostgresCache.get_with_lock db now cache_key lockedByOthers f.lockErr
  if r.value != PyVal.null then
    { result := Except.ok r.value, db := db, plainReads := r.plainReads
      sleptMs := r.sleptMs, computeRan := false, setCalls := 0, storedOk := false
      guardRolledBack := false, guardCommitted := false, guardConnOpenAtExit := false
      usedKey := cache_key }
  else if r.hasConn = false then
    let cached_result := PostgresCache.get db (now + r.sleptMs) cache_key f.getErr
    if cached_result != PyVal.null then
      { result := Except.ok cached_result, db := db, plainReads := r.plainReads + 1
        sleptMs := r.sleptMs, computeRan := false, setCalls := 0, storedOk := false
        guardRolledBack := false, guardCommitted := false, guardConnOpenAtExit := false
        usedKey := cache_key }
    else
      match func args with
      | Except.ok v =>
        { result := Except.ok v, db := db, plainReads := r.plainReads + 1
          sleptMs := r.sleptMs, computeRan := true, setCalls := 0, storedOk := false
          guardRolledBack := false, guardCommitted := false, guardConnOpenAtExit := false
          usedKey := cache_key }
      | Except.error e =>
        { result := Except.error e, db := db, plainReads := r.plainReads + 1
          sleptMs := r.sleptMs, computeRan := true, setCalls := 0, storedOk := false
          guardRolledBack := false, guardCommitted := false, guardConnOpenAtExit := false
          usedKey := cache_key }
  else
    match func args with
    | Except.error e =>
      { result := Except.error e, db := db, plainReads := r.plainReads
        sleptMs := r.sleptMs, computeRan := true, setCalls := 0, storedOk := false
        guardRolledBack := false, guardCommitted := false, guardConnOpenAtExit := true
        usedKey := cache_key }
    | Except.ok v =>
      let s := PostgresCache.set db now cache_key v ttl_seconds f.setErr
      { result := Except.ok v, db := s.1, plainReads := r.plainReads
        sleptMs := r.sleptMs, computeRan := true, setCalls := 1, storedOk := s.2
        guardRolledBack := !s.2, guardCommitted := s.2, guardConnOpenAtExit := true
        usedKey := cache_key }

/-! Helper lemmas about the association-list table. -/

/-- Looking up a key that is not among the keys of the table finds nothing. -/
theorem lookup_eq_none_of_not_mem (l : DB) (key : String)
    (h : key ∉ l.map Prod.fst) : l.lookup key = none := by
  induction l with
  | nil => rfl
  | cons p tl ih =>
    obtain ⟨k, e⟩ := p
    simp only [List.map_cons, List.mem_cons, not_or] at h
    have hk : (key == k) = false := beq_false_of_ne h.1
    simp [List.lookup, hk, ih h.2]

/-- Looking up the key just upserted finds the new entry. -/
theorem lookup_dbUpsert_self (db : DB) (key : String) (e : Entry) :
    (dbUpsert db key e).lookup key = some e := by
  simp [dbUpsert, List.lookup]

/-- C4 — Hit after set (round-trip): for every key, every
JSON-round-trip-serializable value (the universe `PyVal`, on which
serialization round-trips to the identity), and every ttl > 0, after
`set(key, value, ttl)` succeeds, a read of that key at any time `t < ttl`
after the set (and before any other write) returns that value. -/
theorem hit_after_set (db : DB) (now : Nat) (key : String) (value : PyVal)
    (ttl t : Nat) (httl : 0 < ttl) (ht : t < ttl) :
    (PostgresCache.set db now key value ttl false).2 = true ∧
    PostgresCache.get (PostgresCache.set db now key value ttl false).1
      (now + t) key false = value := by
  refine ⟨rfl, ?_⟩
  have hlook := lookup_dbUpsert_self db key ⟨value, now + ttl⟩
  simp [PostgresCache.get, PostgresCache.set, cacheQuery, hlook,
    Nat.add_lt_add_iff_left, ht]

/-- C4 witness at concrete input: Scenario A, first half. -/
theorem hit_after_set_witness :
    (0 : Nat) < 5000 ∧ (1000 : Nat) < 5000 ∧
    (PostgresCache.set [] 0 "forecast" (PyVal.str "Sunny, 72F") 5000 false).2 = true ∧
    PostgresCache.get (PostgresCache.set [] 0 "forecast" (PyVal.str "Sunny, 72F") 5000 false).1
      (0 + 1000) "forecast" false = PyVal.str "Sunny, 72F" :=
  ⟨by decide, by decide,
    hit_after_set [] 0 "forecast" (PyVal.str "Sunny, 72F") 5000 1000 (by decide) (by decide)⟩

/-- C5 — Expiry: at any time `t ≥ ttl` after `set(key, value, ttl)`, a read
of the key returns `None`, even though the expired row is still physically
present; and in general a row is treated as a hit by the shared query
exactly when `now < expires_at`. -/
theorem read_none_after_expiry (db : DB) (now : Nat) (key : String) (value : PyVal)
    (ttl t : Nat) (ht : ttl ≤ t) :
    ((PostgresCache.set db now key value ttl false).1.lookup key
       = some ⟨value, now + ttl⟩) ∧
    PostgresCache.get (PostgresCache.set db now key value ttl false).1
      (now + t) key false = PyVal.null ∧
    (∀ (db2 : DB) (n : Nat) (k : String) (e : Entry), db2.lookup k = some e →
      (cacheQuery db2 n k = some e ↔ n < e.expires_at)) := by
  refine ⟨lookup_dbUpsert_self db key ⟨value, now + ttl⟩, ?_, ?_⟩
  · have hlook := lookup_dbUpsert_self db key ⟨value, now + ttl⟩
    have hnot : ¬ (now + t < now + ttl) := by omega
    simp [PostgresCache.get, PostgresCache.set, cacheQuery, hlook, hnot]
  · intro db2 n k e hlook
    constructor
    · intro hq
      simp only [cacheQuery, hlook] at hq
      by_cases h : n < e.expires_at
      · exact h
      · simp [h] at hq
    · intro h
      simp [cacheQuery, hlook, h]

/-- C5 witness at concrete input: Scenario A, second half. -/
theorem read_none_after_expiry_witness :
    (5000 : Nat) ≤ 6000 ∧
    (PostgresCache.set [] 0 "forecast" (PyVal.str "Sunny, 72F") 5000 false).1.lookup "forecast"
      = some ⟨PyVal.str "Sunny, 72F", 0 + 5000⟩ ∧
    PostgresCache.get (PostgresCache.set [] 0 "forecast" (PyVal.str "Sunny, 72F") 5000 false).1
      (0 + 6000) "forecast" false = PyVal.null ∧
    (∀ (db2 : DB) (n : Nat) (k : String) (e : Entry), db2.lookup k = some e →
      (cacheQuery db2 n k = some e ↔ n < e.expires_at)) :=
  ⟨by decide, read_none_after_expiry [] 0 "forecast" (PyVal.str "Sunny, 72F") 5000 6000 (by decide)⟩

/-- The keep-predicate of the sweep (`NOT expires_at <= now`) equals the
hit-predicate (`now < expires_at`). -/
theorem sweep_keep_eq_lt (now : Nat) (p : String × Entry) :
    (!(decide (p.2.expires_at ≤ now))) = decide (now < p.2.expires_at) := by
  by_cases h : p.2.expires_at ≤ now
  · simp [h, Nat.not_lt.mpr h]
  · simp [h, Nat.lt_of_not_le h]

/-- On a table with unique keys, sweeping the expired rows does not change
what the shared query returns at the sweep instant. -/
theorem cacheQuery_after_sweep (db : DB) (now : Nat) (key : String)
    (h : (db.map Prod.fst).Nodup) :
    cacheQuery (db.filter fun p => !(decide (p.2.expires_at ≤ now))) now key
      = cacheQuery db now key := by
  induction db with
  | nil => rfl
  | cons p tl ih =>
    obtain ⟨k, e⟩ := p
    simp only [List.map_cons, List.nodup_cons] at h
    by_cases hk : key = k
    · subst hk
      by_cases hkeep : e.expires_at ≤ now
      · have hdrop : (!(decide (e.expires_at ≤ now))) = false := by simp [hkeep]
        have hnone : (tl.filter fun p => !(decide (p.2.expires_at ≤ now))).lookup key = none := by
          apply lookup_eq_none_of_not_mem
          intro hmem
          exact h.1 (by
            obtain ⟨q, hq, hq1⟩ := List.exists_of_mem_map hmem
            exact hq1 ▸ List.mem_map_of_mem Prod.fst (List.mem_of_mem_filter hq))
        simp [List.filter, hdrop, cacheQuery, hnone, Nat.not_lt.mpr hkeep]
      · have hkeep2 : (!(decide (e.expires_at ≤ now))) = true := by simp [hkeep]
        simp [List.filter, hkeep2, cacheQuery, List.lookup]
    · have hbeq : (key == k) = false := beq_false_of_ne hk
      have htl := ih h.2
      by_cases hkeep : e.expires_at ≤ now
      · have hdrop : (!(decide (e.expires_at ≤ now))) = false := by simp [hkeep]
        simpa [List.filter, hdrop, cacheQuery, List.lookup, hbeq] using htl
      · have hkeep2 : (!(decide (e.expires_at ≤ now))) = true := by simp [hkeep]
        simpa [List.filter, hkeep2, cacheQuery, List.lookup, hbeq] using htl

/-- C7 — Sweep correctness: `cleanup_expired` deletes exactly the rows with
`expires_at ≤ now` at call time (the surviving table is exactly the rows
with `now < expires_at`), returns the count of rows removed, and a
subsequent read of any key — in particular any removed key — returns the
same thing it returned before the sweep, so a removed expired key still
reads as `None`. -/
theorem sweep_correct (db : DB) (now : Nat) (h : (db.map Prod.fst).Nodup) :
    (PostgresCache.cleanup_expired db now false).1
      = db.filter (fun p => decide (now < p.2.expires_at)) ∧
    (PostgresCache.cleanup_expired db now false).2
      = (db.filter fun p => decide (p.2.expires_at ≤ now)).length ∧
    (∀ key, PostgresCache.get (PostgresCache.cleanup_expired db now false).1 now key false
      = PostgresCache.get db now key false) ∧
    (∀ key e, db.lookup key = some e → e.expires_at ≤ now →
      PostgresCache.get (PostgresCache.cleanup_expired db now false).1 now key false
        = PyVal.null) := by
  refine ⟨?_, rfl, ?_, ?_⟩
  · simp only [PostgresCache.cleanup_expired, if_neg (by simp : ¬ false = true)]
    exact List.filter_congr fun p _ => sweep_keep_eq_lt now p
  · intro key
    simp only [PostgresCache.cleanup_expired, if_neg (by simp : ¬ false = true)]
    simp [PostgresCache.get, cacheQuery_after_sweep db now key h]
  · intro key e hlook hexp
    simp only [PostgresCache.cleanup_expired, if_neg (by simp : ¬ false = true)]
    rw [PostgresCache.get, cacheQuery_after_sweep db now key h]
    simp [PostgresCache.get, cacheQuery, hlook, Nat.not_lt.mpr hexp]

/-- C7 witness at concrete input: a two-row table with one expired row. -/
theorem sweep_correct_witness :
    (([("a", (⟨PyVal.int 1, 500⟩ : Entry)), ("b", ⟨PyVal.int 2, 2000⟩)].map Prod.fst).Nodup) ∧
    ((PostgresCache.cleanup_expired [("a", ⟨PyVal.int 1, 500⟩), ("b", ⟨PyVal.int 2, 2000⟩)] 1000 false).1
      = [("b", ⟨PyVal.int 2, 2000⟩)] ∧
     (PostgresCache.cleanup_expired [("a", ⟨PyVal.int 1, 500⟩), ("b", ⟨PyVal.int 2, 2000⟩)] 1000 false).2 = 1 ∧
     PostgresCache.get
       (PostgresCache.cleanup_expired [("a", ⟨PyVal.int 1, 500⟩), ("b", ⟨PyVal.int 2, 2000⟩)] 1000 false).1
       1000 "a" false = PyVal.null) := by
  have hnd : (([("a", (⟨PyVal.int 1, 500⟩ : Entry)), ("b", ⟨PyVal.int 2, 2000⟩)].map Prod.fst).Nodup) := by
    decide
  have hmain := sweep_correct [("a", ⟨PyVal.int 1, 500⟩), ("b", ⟨PyVal.int 2, 2000⟩)] 1000 hnd
  exact ⟨hnd, by decide, by decide,
    hmain.2.2.2 "a" ⟨PyVal.int 1, 500⟩ (by decide) (by decide)⟩

/-- C1 — evaluation of the code at the failing input: with the table empty
(so no valid entry exists for the key), a first `get_with_lock` returns the
lock-acquired outcome while holding no row lock at all (the
`SELECT ... FOR UPDATE NOWAIT` matched zero rows, and Postgres row locking
locks only returned rows), and therefore a second, concurrent
`get_with_lock` for the same key — run against the same table while the
first transaction is still open — also returns the lock-acquired outcome
instead of Hit or Busy.  Both invocations transition through ACQUIRED;
single-flight does not hold. -/
theorem double_acquire_on_absent_key :
    cacheQuery [] 1000 "app.events.get_events" = none ∧
    (PostgresCache.get_with_lock [] 1000 "app.events.get_events" [] false).hasConn = true ∧
    (PostgresCache.get_with_lock [] 1000 "app.events.get_events" [] false).heldLocks = [] ∧
    (PostgresCache.get_with_lock [] 1000 "app.events.get_events"
      (PostgresCache.get_with_lock [] 1000 "app.events.get_events" [] false).heldLocks
      false).hasConn = true :=
  ⟨rfl, rfl, rfl, rfl⟩

/-- C2 — evaluation of the code at the failing input: a cache miss acquires
the open connection, `compute` raises `TimeoutError`, and the wrapper —
which has no `try/finally` around the compute call — propagates the error
with nothing stored (a subsequent read returns `None`) but never rolls the
open transaction back and never closes the connection: the guard is left
open, not aborted.  The same holds for the async wrapper. -/
theorem compute_failure_not_aborted :
    (let w := cached.sync_wrapper (α := Unit) 300 "app" "events"
        (fun _ => Except.error PyErr.timeoutError) () [] 1000 [] noFaults
     w.result = Except.error PyErr.timeoutError ∧ w.db = [] ∧ w.setCalls = 0 ∧
     PostgresCache.get w.db 1000 "app.events" false = PyVal.null ∧
     w.guardRolledBack = false ∧ w.guardCommitted = false ∧
     w.guardConnOpenAtExit = true) ∧
    (let w := cached.async_wrapper (α := Unit) 300 "app" "events"
        (fun _ => Except.error PyErr.timeoutError) () [] 1000 [] noFaults
     w.result = Except.error PyErr.timeoutError ∧ w.db = [] ∧ w.setCalls = 0 ∧
     PostgresCache.get w.db 1000 "app.events" false = PyVal.null ∧
     w.guardRolledBack = false ∧ w.guardCommitted = false ∧
     w.guardConnOpenAtExit = true) :=
  ⟨⟨rfl, rfl, rfl, rfl, rfl, rfl, rfl⟩, ⟨rfl, rfl, rfl, rfl, rfl, rfl, rfl⟩⟩

/-- C3 counterexample: a busy invocation whose bounded re-check misses (the
contended row expires during the 500 ms sleep) performs TWO plain
non-locking reads before computing uncached — one inside `get_with_lock`
after the sleep, and a second one in the wrapper fallback — refuting the
claim that exactly one plain read happens and that no further re-check
occurs anywhere before the facade computes uncached. -/
theorem busy_path_two_rechecks_cex :
    (cached.sync_wrapper (α := Unit) 300 "app" "fetch"
      (fun _ => Except.ok (PyVal.str "fresh")) ()
      [("app.fetch", ⟨PyVal.str "v", 1200⟩)] 1000 ["app.fetch"] noFaults).sleptMs = 500 ∧
    (cached.sync_wrapper (α := Unit) 300 "app" "fetch"
      (fun _ => Except.ok (PyVal.str "fresh")) ()
      [("app.fetch", ⟨PyVal.str "v", 1200⟩)] 1000 ["app.fetch"] noFaults).plainReads = 2 ∧
    (cached.sync_wrapper (α := Unit) 300 "app" "fetch"
      (fun _ => Except.ok (PyVal.str "fresh")) ()
      [("app.fetch", ⟨PyVal.str "v", 1200⟩)] 1000 ["app.fetch"] noFaults).computeRan = true ∧
    (cached.sync_wrapper (α := Unit) 300 "app" "fetch"
      (fun _ => Except.ok (PyVal.str "fresh")) ()
      [("app.fetch", ⟨PyVal.str "v", 1200⟩)] 1000 ["app.fetch"] noFaults).setCalls = 0 ∧
    (cached.sync_wrapper (α := Unit) 300 "app" "fetch"
      (fun _ => Except.ok (PyVal.str "fresh")) ()
      [("app.fetch", ⟨PyVal.str "v", 1200⟩)] 1000 ["app.fetch"] noFaults).result
      = Except.ok (PyVal.str "fresh") :=
  ⟨rfl, rfl, rfl, rfl, rfl⟩

/-- C3 amended — Busy-path policy as the code implements it: when the
non-blocking row lock cannot be obtained (a valid row exists and is locked
by another process), the coordinator performs exactly one fixed 500 ms wait
followed by exactly one plain non-locking read and returns its result with
no guard and no open transaction; if that read found a valid hit the facade
returns it; otherwise the facade performs exactly ONE FURTHER plain
non-locking read (so two plain reads in total for the invocation) and, if
that also misses, computes uncached with no further retry and no write. -/
theorem busy_path_behavior {α : Type} (ttl : Nat) (m n : String)
    (func : α → Except PyErr PyVal) (args : α) (db : DB) (now : Nat)
    (locked : List String) (e : Entry)
    (hq : cacheQuery db now (cacheKey m n) = some e)
    (hl : cacheKey m n ∈ locked) :
    PostgresCache.get_with_lock db now (cacheKey m n) locked false
      = ⟨PostgresCache.get db (now + 500) (cacheKey m n) false, false, [], 1, 500⟩ ∧
    (PostgresCache.get db (now + 500) (cacheKey m n) false ≠ PyVal.null →
      (cached.sync_wrapper ttl m n func args db now locked noFaults).result
        = Except.ok (PostgresCache.get db (now + 500) (cacheKey m n) false) ∧
      (cached.sync_wrapper ttl m n func args db now locked noFaults).computeRan = false ∧
      (cached.sync_wrapper ttl m n func args db now locked noFaults).setCalls = 0 ∧
      (cached.sync_wrapper ttl m n func args db now locked noFaults).plainReads = 1) ∧
    (PostgresCache.get db (now + 500) (cacheKey m n) false = PyVal.null →
      (cached.sync_wrapper ttl m n func args db now locked noFaults).plainReads = 2 ∧
      (cached.sync_wrapper ttl m n func args db now locked noFaults).sleptMs = 500 ∧
      (cached.sync_wrapper ttl m n func args db now locked noFaults).computeRan = true ∧
      (cached.sync_wrapper ttl m n func args db now locked noFaults).setCalls = 0 ∧
      (cached.sync_wrapper ttl m n func args db now locked noFaults).db = db ∧
      (cached.sync_wrapper ttl m n func args db now locked noFaults).result = func args) := by
  have hr : PostgresCache.get_with_lock db now (cacheKey m n) locked false
      = ⟨PostgresCache.get db (now + 500) (cacheKey m n) false, false, [], 1, 500⟩ := by
    simp [PostgresCache.get_with_lock, hq, hl]
  refine ⟨hr, ?_, ?_⟩
  · intro hv
    have hb : (PostgresCache.get db (now + 500) (cacheKey m n) false != PyVal.null) = true :=
      bne_iff_ne.mpr hv
    simp [cached.sync_wrapper, hr, hb, noFaults]
  · intro hv
    cases hf : func args with
    | ok v => simp [cached.sync_wrapper, hr, hv, hf, noFaults]
    | error e2 => simp [cached.sync_wrapper, hr, hv, hf, noFaults]

/-- C3 witness at concrete input: a valid, contended row; the coordinator
outcome equals one 500 ms sleep plus one plain read with no guard. -/
theorem busy_path_behavior_witness :
    cacheQuery [("a.b", ⟨PyVal.str "w", 5000⟩)] 1000 (cacheKey "a" "b")
      = some ⟨PyVal.str "w", 5000⟩ ∧
    cacheKey "a" "b" ∈ ["a.b"] ∧
    PostgresCache.get_with_lock [("a.b", ⟨PyVal.str "w", 5000⟩)] 1000 (cacheKey "a" "b") ["a.b"] false
      = ⟨PostgresCache.get [("a.b", ⟨PyVal.str "w", 5000⟩)] (1000 + 500) (cacheKey "a" "b") false,
         false, [], 1, 500⟩ :=
  ⟨by decide, by decide,
    (busy_path_behavior 300 "a" "b" (fun _ : Unit => Except.ok (PyVal.int 1)) ()
      [("a.b", ⟨PyVal.str "w", 5000⟩)] 1000 ["a.b"] ⟨PyVal.str "w", 5000⟩
      (by decide) (by decide)).1⟩

/-- Every branch of the sync wrapper uses the module-qualified function name
as its cache key. -/
theorem sync_wrapper_usedKey {α : Type} (ttl : Nat) (m n : String)
    (func : α → Except PyErr PyVal) (args : α) (db : DB) (now : Nat)
    (locked : List String) (f : Faults) :
    (cached.sync_wrapper ttl m n func args db now locked f).usedKey = cacheKey m n := by
  simp only [cached.sync_wrapper]
  repeat first | rfl | split

/-- C6 — Storage-error degradation: with the storage backend failing at
every operation (connection failure in `get_with_lock`, in `get`, and in
`set`), the store operations return `None`/`False`/the no-lock triple
instead of raising, and `get_or_compute` falls through to invoking the
compute function directly, returning its result with the table untouched
and no write attempted; with only serialization/storage failure in `set`,
the computed value is still returned to the caller, just not cached. -/
theorem storage_errors_absorbed {α : Type} (ttl : Nat) (m n : String)
    (func : α → Except PyErr PyVal) (args : α) (db : DB) (now : Nat)
    (locked : List String) :
    ((cached.sync_wrapper ttl m n func args db now locked ⟨true, true, true⟩).result = func args ∧
     (cached.sync_wrapper ttl m n func args db now locked ⟨true, true, true⟩).db = db ∧
     (cached.sync_wrapper ttl m n func args db now locked ⟨true, true, true⟩).setCalls = 0 ∧
     (cached.sync_wrapper ttl m n func args db now locked ⟨true, true, true⟩).computeRan = true) ∧
    PostgresCache.get db now (cacheKey m n) true = PyVal.null ∧
    (∀ (v : PyVal) (t2 : Nat), PostgresCache.set db now (cacheKey m n) v t2 true = (db, false)) ∧
    PostgresCache.get_with_lock db now (cacheKey m n) locked true
      = ⟨PyVal.null, false, [], 0, 0⟩ ∧
    (cacheQuery db now (cacheKey m n) = none → ∀ v, func args = Except.ok v →
      (cached.sync_wrapper ttl m n func args db now locked ⟨false, false, true⟩).result
        = Except.ok v ∧
      (cached.sync_wrapper ttl m n func args db now locked ⟨false, false, true⟩).db = db ∧
      (cached.sync_wrapper ttl m n func args db now locked ⟨false, false, true⟩).storedOk = false ∧
      (cached.sync_wrapper ttl m n func args db now locked ⟨false, false, true⟩).guardRolledBack
        = true) := by
  refine ⟨?_, rfl, fun v t2 => rfl, rfl, ?_⟩
  · have hgwl : PostgresCache.get_with_lock db now (cacheKey m n) locked true
        = ⟨PyVal.null, false, [], 0, 0⟩ := rfl
    cases hf : func args with
    | ok v => exact ⟨by simp [cached.sync_wrapper, hgwl, PostgresCache.get, hf],
        by simp [cached.sync_wrapper, hgwl, PostgresCache.get, hf],
        by simp [cached.sync_wrapper, hgwl, PostgresCache.get, hf],
        by simp [cached.sync_wrapper, hgwl, PostgresCache.get, hf]⟩
    | error e => exact ⟨by simp [cached.sync_wrapper, hgwl, PostgresCache.get, hf],
        by simp [cached.sync_wrapper, hgwl, PostgresCache.get, hf],
        by simp [cached.sync_wrapper, hgwl, PostgresCache.get, hf],
        by simp [cached.sync_wrapper, hgwl, PostgresCache.get, hf]⟩
  · intro hq v hv
    have hgwl : PostgresCache.get_with_lock db now (cacheKey m n) locked false
        = ⟨PyVal.null, true, [], 0, 0⟩ := by
      simp [PostgresCache.get_with_lock, hq]
    refine ⟨?_, ?_, ?_, ?_⟩ <;>
      simp [cached.sync_wrapper, hgwl, hv, PostgresCache.set]

/-- C6 witness at concrete input: a healthy compute under full storage
outage, and under a set-only failure. -/
theorem storage_errors_absorbed_witness :
    cacheQuery [] 0 (cacheKey "app" "weather") = none ∧
    ((fun _ : Unit => (Except.ok (PyVal.int 7) : Except PyErr PyVal)) ()
      = Except.ok (PyVal.int 7)) ∧
    ((cached.sync_wrapper 300 "app" "weather" (fun _ : Unit => Except.ok (PyVal.int 7)) ()
        [] 0 [] ⟨true, true, true⟩).result = Except.ok (PyVal.int 7)) ∧
    ((cached.sync_wrapper 300 "app" "weather" (fun _ : Unit => Except.ok (PyVal.int 7)) ()
        [] 0 [] ⟨false, false, true⟩).result = Except.ok (PyVal.int 7) ∧
     (cached.sync_wrapper 300 "app" "weather" (fun _ : Unit => Except.ok (PyVal.int 7)) ()
        [] 0 [] ⟨false, false, true⟩).db = [] ∧
     (cached.sync_wrapper 300 "app" "weather" (fun _ : Unit => Except.ok (PyVal.int 7)) ()
        [] 0 [] ⟨false, false, true⟩).storedOk = false ∧
     (cached.sync_wrapper 300 "app" "weather" (fun _ : Unit => Except.ok (PyVal.int 7)) ()
        [] 0 [] ⟨false, false, true⟩).guardRolledBack = true) :=
  ⟨rfl, rfl,
    (storage_errors_absorbed 300 "app" "weather" (fun _ : Unit => Except.ok (PyVal.int 7)) ()
      [] 0 []).1.1,
    (storage_errors_absorbed 300 "app" "weather" (fun _ : Unit => Except.ok (PyVal.int 7)) ()
      [] 0 []).2.2.2.2 rfl (PyVal.int 7) rfl⟩

/-- C8 counterexample: with `compute` raising `TimeoutError` on an acquired
miss, the caller observes the raw `TimeoutError` itself, not a
`CacheComputeError` wrapping it — no wrapping error type exists in the
code. -/
theorem compute_error_unwrapped_cex :
    (cached.sync_wrapper (α := Unit) 300 "m" "f"
      (fun _ => Except.error PyErr.timeoutError) () [] 0 [] noFaults).result
      = Except.error PyErr.timeoutError ∧
    (cached.sync_wrapper (α := Unit) 300 "m" "f"
      (fun _ => Except.error PyErr.timeoutError) () [] 0 [] noFaults).result
      ≠ Except.error (PyErr.cacheComputeError PyErr.timeoutError) := by
  constructor
  · rfl
  · intro hcontra
    have h2 : (Except.error PyErr.timeoutError : Except PyErr PyVal)
        = Except.error (PyErr.cacheComputeError PyErr.timeoutError) := hcontra
    simp at h2

/-- C8 amended — for every invocation of `get_or_compute` in which
`compute()` raises, the error the caller observes is exactly the error
raised by `compute`, unwrapped (the code defines no `CacheComputeError`);
the only invocations that do not surface the compute error are those that
never invoked `compute` because they returned a cached value. -/
theorem compute_error_propagates_raw {α : Type} (ttl : Nat) (m n : String)
    (func : α → Except PyErr PyVal) (args : α) (db : DB) (now : Nat)
    (locked : List String) (f : Faults) (e : PyErr)
    (h : func args = Except.error e) :
    (cached.sync_wrapper ttl m n func args db now locked f).result = Except.error e ∨
    ((cached.sync_wrapper ttl m n func args db now locked f).computeRan = false ∧
     ∃ v, (cached.sync_wrapper ttl m n func args db now locked f).result = Except.ok v ∧
       v ≠ PyVal.null) := by
  by_cases hv : (PostgresCache.get_with_lock db now (cacheKey m n) locked f.lockErr).value
      = PyVal.null
  · by_cases hc : (PostgresCache.get_with_lock db now (cacheKey m n) locked f.lockErr).hasConn
        = false
    · by_cases hg : PostgresCache.get db
          (now + (PostgresCache.get_with_lock db now (cacheKey m n) locked f.lockErr).sleptMs)
          (cacheKey m n) f.getErr = PyVal.null
      · left
        simp [cached.sync_wrapper, hv, hc, hg, h]
      · right
        refine ⟨?_, PostgresCache.get db
            (now + (PostgresCache.get_with_lock db now (cacheKey m n) locked f.lockErr).sleptMs)
            (cacheKey m n) f.getErr, ?_, hg⟩ <;>
          simp [cached.sync_wrapper, hv, hc, bne_iff_ne, hg]
    · left
      simp [cached.sync_wrapper, hv, hc, h]
  · right
    refine ⟨?_, (PostgresCache.get_with_lock db now (cacheKey m n) locked f.lockErr).value,
      ?_, hv⟩ <;>
      simp [cached.sync_wrapper, bne_iff_ne, hv]

/-- C8 witness at concrete input: Scenario C shape, with the failing compute
on an empty table. -/
theorem compute_error_propagates_raw_witness :
    ((fun _ : Unit => (Except.error PyErr.timeoutError : Except PyErr PyVal)) ()
      = Except.error PyErr.timeoutError) ∧
    ((cached.sync_wrapper 300 "app" "photos" (fun _ : Unit => Except.error PyErr.timeoutError) ()
        [] 0 [] noFaults).result = Except.error PyErr.timeoutError ∨
     ((cached.sync_wrapper 300 "app" "photos" (fun _ : Unit => Except.error PyErr.timeoutError) ()
        [] 0 [] noFaults).computeRan = false ∧
      ∃ v, (cached.sync_wrapper 300 "app" "photos"
        (fun _ : Unit => Except.error PyErr.timeoutError) () [] 0 [] noFaults).result
          = Except.ok v ∧ v ≠ PyVal.null)) :=
  ⟨rfl, compute_error_propagates_raw 300 "app" "photos"
    (fun _ : Unit => Except.error PyErr.timeoutError) () [] 0 [] noFaults
    PyErr.timeoutError rfl⟩

/-- C9 — the cache key ignores the call arguments: the key is derived
solely from the module-qualified function name, so two calls with
different arguments (even with different computed values) share one cache
entry, and the second call is served the value computed for the first
arguments of the first call without running its own computation. -/
theorem cache_key_ignores_args {α : Type} (ttl : Nat) (m n : String)
    (func1 func2 : α → Except PyErr PyVal) (args1 args2 : α)
    (db : DB) (now now2 : Nat) (v : PyVal)
    (hmiss : cacheQuery db now (cacheKey m n) = none)
    (hc : func1 args1 = Except.ok v) (hv : v ≠ PyVal.null)
    (ht : now2 < now + ttl) :
    (cached.sync_wrapper ttl m n func1 args1 db now [] noFaults).usedKey
      = (cached.sync_wrapper ttl m n func2 args2 db now [] noFaults).usedKey ∧
    (cached.sync_wrapper ttl m n func1 args1 db now [] noFaults).result = Except.ok v ∧
    (cached.sync_wrapper ttl m n func2 args2
      (cached.sync_wrapper ttl m n func1 args1 db now [] noFaults).db now2 [] noFaults).result
      = Except.ok v ∧
    (cached.sync_wrapper ttl m n func2 args2
      (cached.sync_wrapper ttl m n func1 args1 db now [] noFaults).db now2 [] noFaults).computeRan
      = false := by
  have hgwl : PostgresCache.get_with_lock db now (cacheKey m n) [] false
      = ⟨PyVal.null, true, [], 0, 0⟩ := by
    simp [PostgresCache.get_with_lock, hmiss]
  have hdb1 : (cached.sync_wrapper ttl m n func1 args1 db now [] noFaults).db
      = dbUpsert db (cacheKey m n) ⟨v, now + ttl⟩ := by
    simp [cached.sync_wrapper, hgwl, hc, PostgresCache.set, noFaults, PostgresCache.get]
  have hres1 : (cached.sync_wrapper ttl m n func1 args1 db now [] noFaults).result
      = Except.ok v := by
    simp [cached.sync_wrapper, hgwl, hc, noFaults, PostgresCache.get]
  have hq2 : cacheQuery (dbUpsert db (cacheKey m n) ⟨v, now + ttl⟩) now2 (cacheKey m n)
      = some ⟨v, now + ttl⟩ := by
    simp [cacheQuery, lookup_dbUpsert_self, ht]
  have hgwl2 : PostgresCache.get_with_lock (dbUpsert db (cacheKey m n) ⟨v, now + ttl⟩)
      now2 (cacheKey m n) [] false = ⟨v, false, [], 0, 0⟩ := by
    simp [PostgresCache.get_with_lock, hq2]
  refine ⟨?_, hres1, ?_, ?_⟩
  · rw [sync_wrapper_usedKey, sync_wrapper_usedKey]
  · rw [hdb1]
    simp [cached.sync_wrapper, hgwl2, bne_iff_ne, hv, noFaults]
  · rw [hdb1]
    simp [cached.sync_wrapper, hgwl2, bne_iff_ne, hv, noFaults]

/-- C9 witness at concrete input: two calls with different integer
arguments and even different bodies; the second is served the value of the
first without computing. -/
theorem cache_key_ignores_args_witness :
    cacheQuery [] 0 (cacheKey "app" "traffic") = none ∧
    ((fun a : Int => (Except.ok (PyVal.int a) : Except PyErr PyVal)) 1
      = Except.ok (PyVal.int 1)) ∧
    PyVal.int 1 ≠ PyVal.null ∧ (10 : Nat) < 0 + 300 ∧
    (cached.sync_wrapper 300 "app" "traffic"
      (fun a : Int => (Except.ok (PyVal.int (a + 100)) : Except PyErr PyVal)) 2
      (cached.sync_wrapper 300 "app" "traffic"
        (fun a : Int => (Except.ok (PyVal.int a) : Except PyErr PyVal)) 1
        [] 0 [] noFaults).db 10 [] noFaults).result = Except.ok (PyVal.int 1) ∧
    (cached.sync_wrapper 300 "app" "traffic"
      (fun a : Int => (Except.ok (PyVal.int (a + 100)) : Except PyErr PyVal)) 2
      (cached.sync_wrapper 300 "app" "traffic"
        (fun a : Int => (Except.ok (PyVal.int a) : Except PyErr PyVal)) 1
        [] 0 [] noFaults).db 10 [] noFaults).computeRan = false :=
  ⟨rfl, rfl, by decide, by decide,
    (cache_key_ignores_args 300 "app" "traffic"
      (fun a : Int => Except.ok (PyVal.int a))
      (fun a : Int => Except.ok (PyVal.int (a + 100))) 1 2 [] 0 10 (PyVal.int 1)
      rfl rfl (by decide) (by decide)).2.2.1,
    (cache_key_ignores_args 300 "app" "traffic"
      (fun a : Int => Except.ok (PyVal.int a))
      (fun a : Int => Except.ok (PyVal.int (a + 100))) 1 2 [] 0 10 (PyVal.int 1)
      rfl rfl (by decide) (by decide)).2.2.2⟩

/-- C10 counterexample: with a valid cached JSON `null` for the key, a
subsequent `get_or_compute` does recompute, but it performs zero `set`
calls and leaves the table unchanged — it does NOT re-store, refuting the
claimed "(and re-stores)": the null hit is indistinguishable from the busy
outcome, so the wrapper takes the do-not-cache path. -/
theorem cached_null_no_restore_cex :
    (cached.sync_wrapper (α := Unit) 300 "m" "f"
      (fun _ => Except.ok (PyVal.str "x")) ()
      [("m.f", ⟨PyVal.null, 2000⟩)] 1000 [] noFaults).computeRan = true ∧
    (cached.sync_wrapper (α := Unit) 300 "m" "f"
      (fun _ => Except.ok (PyVal.str "x")) ()
      [("m.f", ⟨PyVal.null, 2000⟩)] 1000 [] noFaults).setCalls = 0 ∧
    (cached.sync_wrapper (α := Unit) 300 "m" "f"
      (fun _ => Except.ok (PyVal.str "x")) ()
      [("m.f", ⟨PyVal.null, 2000⟩)] 1000 [] noFaults).db
      = [("m.f", ⟨PyVal.null, 2000⟩)] ∧
    (cached.sync_wrapper (α := Unit) 300 "m" "f"
      (fun _ => Except.ok (PyVal.str "x")) ()
      [("m.f", ⟨PyVal.null, 2000⟩)] 1000 [] noFaults).result
      = Except.ok (PyVal.str "x") :=
  ⟨rfl, rfl, rfl, rfl⟩

/-- C10 amended — a `None` result is never served as a hit: if `compute`
returns `None` on an acquired miss, the value is stored as JSON `null`;
and for every table holding a valid (unexpired) `null` entry for the key,
every `get_or_compute` invocation treats the read as a miss and recomputes,
WITHOUT re-storing (no `set` call, table unchanged) — so a cached `None` is
never returned from the cache. -/
theorem cached_null_semantics {α : Type} (ttl : Nat) (m n : String)
    (func : α → Except PyErr PyVal) (args : α) (db : DB) (now : Nat)
    (locked : List String) :
    (cacheQuery db now (cacheKey m n) = none → func args = Except.ok PyVal.null →
      (cached.sync_wrapper ttl m n func args db now locked noFaults).db.lookup (cacheKey m n)
        = some ⟨PyVal.null, now + ttl⟩ ∧
      (cached.sync_wrapper ttl m n func args db now locked noFaults).storedOk = true ∧
      (cached.sync_wrapper ttl m n func args db now locked noFaults).result
        = Except.ok PyVal.null) ∧
    (∀ e : Entry, db.lookup (cacheKey m n) = some e → e.value = PyVal.null →
      now < e.expires_at →
      (cached.sync_wrapper ttl m n func args db now locked noFaults).computeRan = true ∧
      (cached.sync_wrapper ttl m n func args db now locked noFaults).setCalls = 0 ∧
      (cached.sync_wrapper ttl m n func args db now locked noFaults).db = db ∧
      (cached.sync_wrapper ttl m n func args db now locked noFaults).result = func args) := by
  constructor
  · intro hq hnull
    have hgwl : PostgresCache.get_with_lock db now (cacheKey m n) locked false
        = ⟨PyVal.null, true, [], 0, 0⟩ := by
      simp [PostgresCache.get_with_lock, hq]
    refine ⟨?_, ?_, ?_⟩ <;>
      simp [cached.sync_wrapper, hgwl, hnull, PostgresCache.set, noFaults,
        lookup_dbUpsert_self, PostgresCache.get]
  · intro e hq hnull hvalid
    have hq2 : cacheQuery db now (cacheKey m n) = some e := by
      simp [cacheQuery, hq, hvalid]
    have hget : ∀ t, PostgresCache.get db t (cacheKey m n) false = PyVal.null := by
      intro t
      by_cases h : t < e.expires_at <;>
        simp [PostgresCache.get, cacheQuery, hq, h, hnull]
    by_cases hmem : (cacheKey m n) ∈ locked
    · have hgwl : PostgresCache.get_with_lock db now (cacheKey m n) locked false
          = ⟨PyVal.null, false, [], 1, 500⟩ := by
        simp [PostgresCache.get_with_lock, hq2, hmem, hget]
      cases hf : func args <;>
        simp [cached.sync_wrapper, hgwl, hget, hf, noFaults]
    · have hgwl : PostgresCache.get_with_lock db now (cacheKey m n) locked false
          = ⟨PyVal.null, false, [], 0, 0⟩ := by
        simp [PostgresCache.get_with_lock, hq2, hmem, hnull]
      cases hf : func args <;>
        simp [cached.sync_wrapper, hgwl, hget, hf, noFaults]

/-- C10 witness at concrete input: storing a computed `None`, and the
recompute-without-restore behaviour on a table holding a valid null entry. -/
theorem cached_null_semantics_witness :
    cacheQuery [] 1000 (cacheKey "m" "f") = none ∧
    ((fun _ : Unit => (Except.ok PyVal.null : Except PyErr PyVal)) ()
      = Except.ok PyVal.null) ∧
    (cached.sync_wrapper 300 "m" "f"
      (fun _ : Unit => (Except.ok PyVal.null : Except PyErr PyVal)) ()
      [] 1000 [] noFaults).db.lookup (cacheKey "m" "f")
      = some ⟨PyVal.null, 1000 + 300⟩ ∧
    ([("m.f", (⟨PyVal.null, 2000⟩ : Entry))].lookup (cacheKey "m" "f")
      = some ⟨PyVal.null, 2000⟩) ∧
    (cached.sync_wrapper 300 "m" "f"
      (fun _ : Unit => (Except.ok (PyVal.str "x") : Except PyErr PyVal)) ()
      [("m.f", ⟨PyVal.null, 2000⟩)] 1000 [] noFaults).computeRan = true ∧
    (cached.sync_wrapper 300 "m" "f"
      (fun _ : Unit => (Except.ok (PyVal.str "x") : Except PyErr PyVal)) ()
      [("m.f", ⟨PyVal.null, 2000⟩)] 1000 [] noFaults).setCalls = 0 :=
  ⟨rfl, rfl,
    ((cached_null_semantics (α := Unit) 300 "m" "f"
      (fun _ => Except.ok PyVal.null) () [] 1000 []).1 rfl rfl).1,
    by decide,
    ((cached_null_semantics (α := Unit) 300 "m" "f"
      (fun _ => Except.ok (PyVal.str "x")) () [("m.f", ⟨PyVal.null, 2000⟩)] 1000 []).2
      ⟨PyVal.null, 2000⟩ (by decide) rfl (by decide)).1,
    ((cached_null_semantics (α := Unit) 300 "m" "f"
      (fun _ => Except.ok (PyVal.str "x")) () [("m.f", ⟨PyVal.null, 2000⟩)] 1000 []).2
      ⟨PyVal.null, 2000⟩ (by decide) rfl (by decide)).2.1⟩

end Peak
